import Mathlib

/-!
# Robust-Banker: order matching and trade settlement, shallow embedding

This file embeds the core of the Robust-Banker trading back end in Lean 4
and proves properties of the embedded code.

The matching service keeps an in-memory order book per stock id
(`OrderBook` with two flat slices, `Buys` and `Sells`), receives order
events over a pub/sub channel (`handleOrderEvent`), inserts or removes
orders (`addOrder`, `removeOrder`) and runs the continuous matching loop
(`matchOrders`), which calls `executeTrade` for the money and share
movements and `recordFinalTransaction` for history finalization.

Conventions of the embedding:
* Go `int` becomes `Int`; Go `float64` money and price amounts become `ℚ`
  (the claims under study do not depend on floating-point rounding).
* In-place mutation of the book slices becomes explicit list rewriting
  that preserves element order, exactly following the loop structure.
* The outbound HTTP calls of the settlement saga become updates of an
  explicit `SettleState`; each call is given a boolean outcome flag
  (`true` = HTTP success), and a failed call leaves the state unchanged.
* `recordFinalTransaction` becomes the list of history payloads the
  matching loop posts to the order-history service.
-/

deriving instance DecidableEq for Except

namespace RobustBanker

/-- The `Order` struct of the matching service (part_005).  The nested
`StockData` field is never read by the engine and is omitted; the
`WalletTxID` null-able string becomes `Option String`.  `created` is the
`created_at` timestamp, abstracted to an integer instant. -/
structure Order where
  stockID : Int
  stockTxID : String
  parentStockTxID : String
  walletTxID : Option String
  userID : Int
  orderType : String
  isBuy : Bool
  quantity : Int
  price : ℚ
  status : String
  created : Int
  deriving DecidableEq, Repr

/-- The per-stock `OrderBook` with its two flat slices. -/
structure OrderBook where
  buys : List Order
  sells : List Order
  deriving DecidableEq, Repr

/-- The `books` map from stock id to order book.  A stock id that was
never touched maps to the empty book, matching the lazy creation in
`addOrder`. -/
def Books := Int → OrderBook

/-- Embedding of Go `strings.ToUpper`, applied character-wise over the
string data (the order-type strings compared in this code are ASCII). -/
def toUpperAscii (s : String) : String := ⟨s.data.map Char.toUpper⟩

/-- `canMatch` of the matching service: a pair crosses when either side
is a MARKET order (the order type is compared case-insensitively), or
when the buy price is at least the sell price. -/
def canMatch (buy sell : Order) : Bool :=
  if toUpperAscii buy.orderType = "MARKET" ∨ toUpperAscii sell.orderType = "MARKET" then
    true
  else
    decide (buy.price ≥ sell.price)

/-- The trade price computed at the top of `executeTrade`: the sell
price, except that a zero sell price with a nonzero buy price gives the
buy price. -/
def tradePrice (buy sell : Order) : ℚ :=
  if sell.price = 0 ∧ buy.price ≠ 0 then buy.price else sell.price

/-- A trade handed to settlement: `executeTrade(*buy, *sell, qty)` is
called with the still-undecremented snapshots of the two orders. -/
structure Trade where
  buy : Order
  sell : Order
  qty : Int
  deriving DecidableEq, Repr

/-- The JSON body `recordFinalTransaction` posts to
`/internal/recordStockTransaction`. -/
structure TxRecord where
  stockTxID : String
  userID : Int
  stockID : Int
  quantity : Int
  price : ℚ
  orderStatus : String
  deriving DecidableEq, Repr

/-- `recordFinalTransaction` of the matching service: orders whose
status is not COMPLETED are dropped; otherwise the posted body carries
the current (already decremented) `Quantity` of the order. -/
def recordFinalTransaction (o : Order) : List TxRecord :=
  if o.status ≠ "COMPLETED" then []
  else [⟨o.stockTxID, o.userID, o.stockID, o.quantity, o.price, "COMPLETED"⟩]

/-- Result of the inner loop of `matchOrders` for one buy order: the
updated buy, the updated sell slice, and the trades and history records
produced. -/
structure SellScan where
  buy : Order
  sells : List Order
  trades : List Trade
  recs : List TxRecord
  deriving Repr

/-- The post-trade update of one order inside the loop: the quantity is
decremented by the traded amount, and the status becomes COMPLETED when
the remainder is 0 and PARTIALLY_COMPLETE otherwise - the two
`if buy.Quantity == 0` / `if sell.Quantity == 0` statements of the
source. -/
def settleLeg (o : Order) (qty : Int) : Order :=
  { o with quantity := o.quantity - qty,
           status := if o.quantity - qty = 0 then ("COMPLETED") else ("PARTIALLY_COMPLETE") }

/-- The inner `for j` loop of `matchOrders`: scan the sell slice in
index order, skip depleted sells, and trade `min` quantities with every
crossable sell until the buy is depleted (the `break`) or the slice
ends.  `recordFinalTransaction` is called exactly on the legs whose
quantity just reached 0, with the post-update order, as in the
source. -/
def matchSells (buy : Order) : List Order → SellScan
  | [] => ⟨buy, [], [], []⟩
  | sell :: rest =>
    if sell.quantity ≤ 0 then
      let r := matchSells buy rest
      ⟨r.buy, sell :: r.sells, r.trades, r.recs⟩
    else if canMatch buy sell then
      let qty := min buy.quantity sell.quantity
      let tr : Trade := ⟨buy, sell, qty⟩
      let buy1 := settleLeg buy qty
      let sell1 := settleLeg sell qty
      let recs1 := (if buy1.quantity = 0 then recordFinalTransaction buy1 else []) ++
                   (if sell1.quantity = 0 then recordFinalTransaction sell1 else [])
      if buy1.quantity ≤ 0 then
        ⟨buy1, sell1 :: rest, [tr], recs1⟩
      else
        let r := matchSells buy1 rest
        ⟨r.buy, sell1 :: r.sells, tr :: r.trades, recs1 ++ r.recs⟩
    else
      let r := matchSells buy rest
      ⟨r.buy, sell :: r.sells, r.trades, r.recs⟩

/-- Result of the outer loop of `matchOrders`. -/
structure BuyScan where
  buys : List Order
  sells : List Order
  trades : List Trade
  recs : List TxRecord
  deriving Repr

/-- The outer `for i` loop of `matchOrders`: every buy in index order is
scanned against the current sell slice; depleted buys are skipped; the
index always advances. -/
def matchBuys : List Order → List Order → BuyScan
  | [], sells => ⟨[], sells, [], []⟩
  | buy :: rest, sells =>
    if buy.quantity ≤ 0 then
      let r := matchBuys rest sells
      ⟨buy :: r.buys, r.sells, r.trades, r.recs⟩
    else
      let s := matchSells buy sells
      let r := matchBuys rest s.sells
      ⟨s.buy :: r.buys, r.sells, s.trades ++ r.trades, s.recs ++ r.recs⟩

/-- `filterNonZero`: the post-loop compaction keeps exactly the entries
with a strictly positive remaining quantity, preserving order. -/
def filterNonZero (orders : List Order) : List Order :=
  orders.filter (fun o => 0 < o.quantity)

/-- `filterOutTxID` removes every entry carrying the given transaction
id, preserving order. -/
def filterOutTxID (orders : List Order) (txID : String) : List Order :=
  orders.filter (fun o => o.stockTxID ≠ txID)

/-- `matchOrders` on one book: run the nested loops, then compact both
slices. -/
def matchOrders (ob : OrderBook) : OrderBook × List Trade × List TxRecord :=
  let r := matchBuys ob.buys ob.sells
  (⟨filterNonZero r.buys, filterNonZero r.sells⟩, r.trades, r.recs)

/-- `addOrder`: append the order at the end of its side. -/
def addOrder (o : Order) (ob : OrderBook) : OrderBook :=
  if o.isBuy then { ob with buys := ob.buys ++ [o] }
  else { ob with sells := ob.sells ++ [o] }

/-- `removeOrder` applied to one book: drop the transaction id from both
sides. -/
def removeFromBook (txID : String) (ob : OrderBook) : OrderBook :=
  ⟨filterOutTxID ob.buys txID, filterOutTxID ob.sells txID⟩

/-- `handleOrderEvent`: a payload with status CANCELLED removes the id
from every book; any other payload is inserted into the book of its
stock id and that book is matched.  Returns the new books map together
with the trades and history records produced. -/
def handleOrderEvent (o : Order) (books : Books) :
    Books × List Trade × List TxRecord :=
  if o.status = "CANCELLED" then
    (fun s => removeFromBook o.stockTxID (books s), [], [])
  else
    let books1 : Books := fun s =>
      if s = o.stockID then addOrder o (books s) else books s
    let m := matchOrders (books1 o.stockID)
    (fun s => if s = o.stockID then m.1 else books1 s, m.2.1, m.2.2)

/-!
## Settlement coordinator (`executeTrade` and the wallet service calls)

`executeTrade` performs four outbound calls in order — deduct money from
the buyer, remove shares from the seller, add shares to the buyer,
credit money to the seller — and on a failure runs the compensating
calls of its branch (ignoring their errors) and returns the error.  The
external wallet and portfolio state is a `SettleState`; each call gets a
boolean outcome flag and a failed call leaves the state unchanged.
-/

/-- External state touched by the settlement saga: one wallet balance
per user and one holding per (user, stock). -/
structure SettleState where
  wallet : Int → ℚ
  portfolio : Int → Int → Int

/-- Effect of a successful `/deductMoneyFromWallet` call. -/
def deductMoney (st : SettleState) (u : Int) (amt : ℚ) : SettleState :=
  { st with wallet := fun v => if v = u then st.wallet v - amt else st.wallet v }

/-- Effect of a successful `/addMoneyToWallet` call. -/
def addMoney (st : SettleState) (u : Int) (amt : ℚ) : SettleState :=
  { st with wallet := fun v => if v = u then st.wallet v + amt else st.wallet v }

/-- Effect of a successful `/updateStockPortfolio` call with a share
delta. -/
def updatePortfolio (st : SettleState) (u stock : Int) (delta : Int) : SettleState :=
  { st with portfolio := fun v s =>
      if v = u ∧ s = stock then st.portfolio v s + delta else st.portfolio v s }

/-- Run a call whose error is ignored (the `_ =` compensation calls):
apply the effect only when the call succeeds. -/
def runIf (ok : Bool) (f : SettleState → SettleState) (st : SettleState) : SettleState :=
  if ok then f st else st

/-- `executeTrade(buy, sell, qty)` with explicit outcome flags:
`o1 o2 o3 o4` are the outcomes of the four saga steps, and `cA cB cC`
the outcomes of the (error-ignored) compensation calls of whichever
failure branch is taken, in source order.  Returns `false` with the
resulting external state when the trade aborted, `true` on success.

Failure branches, exactly as in the source:
* step 1 fails: return, no compensation;
* step 2 fails: re-add the money to the buyer;
* step 3 fails: re-add the money to the buyer, then re-add the shares
  to the seller;
* step 4 fails: call `callDeductMoney` on the buyer for the cost, then
  remove the shares from the buyer, then re-add the shares to the
  seller. -/
def executeTrade (buy sell : Order) (qty : Int)
    (o1 o2 o3 o4 cA cB cC : Bool) (st : SettleState) : Bool × SettleState :=
  let cost : ℚ := (qty : ℚ) * tradePrice buy sell
  if ¬ o1 then (false, st)
  else
    let st1 := deductMoney st buy.userID cost
    if ¬ o2 then
      (false, runIf cA (fun s => addMoney s buy.userID cost) st1)
    else
      let st2 := updatePortfolio st1 sell.userID sell.stockID (-qty)
      if ¬ o3 then
        (false, runIf cB (fun s => updatePortfolio s sell.userID sell.stockID qty)
                  (runIf cA (fun s => addMoney s buy.userID cost) st2))
      else
        let st3 := updatePortfolio st2 buy.userID buy.stockID qty
        if ¬ o4 then
          (false, runIf cC (fun s => updatePortfolio s sell.userID sell.stockID qty)
                    (runIf cB (fun s => updatePortfolio s buy.userID buy.stockID (-qty))
                      (runIf cA (fun s => deductMoney s buy.userID cost) st3)))
        else
          (true, addMoney st3 sell.userID cost)

/-!
## Intake API (`placeStockOrder` of the order service)

The order-service handler validates the request and inserts one row
into one of the four active-order tables.  The row store is a list of
`ActiveRow`; an error response leaves it unchanged.  The generated
`stock_tx_id` (a time UUID) and the insertion instant are passed in as
parameters `txID` and `now`.
-/

/-- A row of one of the `orders_keyspace` active-order tables. -/
structure ActiveRow where
  table : String
  stockID : Int
  stockTxID : String
  userID : Int
  orderType : String
  isBuy : Bool
  quantity : Int
  price : ℚ
  orderStatus : String
  createdAt : Int
  deriving DecidableEq, Repr

/-- Intake response: HTTP 400 with a message, or HTTP 200 success. -/
inductive PlaceResult where
  | badRequest (msg : String)
  | ok
  deriving DecidableEq, Repr

/-- The fields of the `PlaceOrder` request body that the handler
reads. -/
structure PlaceRequest where
  stockID : Int
  orderType : String
  isBuy : Bool
  quantity : Int
  price : ℚ
  deriving DecidableEq, Repr

/-- `placeMarketOrder`: reject a nonzero price, else insert into
`market_buy` or `market_sell` with price 0, type MARKET and status
IN_PROGRESS. -/
def placeMarketOrder (userID : Int) (req : PlaceRequest) (txID : String) (now : Int)
    (store : List ActiveRow) : PlaceResult × List ActiveRow :=
  if req.price ≠ 0 then
    (.badRequest ("Market orders cannot have a price"), store)
  else
    let tbl := if req.isBuy then ("market_buy") else ("market_sell")
    (.ok, store ++ [⟨tbl, req.stockID, txID, userID, "MARKET", req.isBuy,
                     req.quantity, 0, "IN_PROGRESS", now⟩])

/-- `placeLimitOrder`: reject a non-positive price, else insert into
`limit_buy` or `limit_sell` with the requested price, type LIMIT and
status IN_PROGRESS. -/
def placeLimitOrder (userID : Int) (req : PlaceRequest) (txID : String) (now : Int)
    (store : List ActiveRow) : PlaceResult × List ActiveRow :=
  if req.price ≤ 0 then
    (.badRequest ("Invalid price for LIMIT order"), store)
  else
    let tbl := if req.isBuy then ("limit_buy") else ("limit_sell")
    (.ok, store ++ [⟨tbl, req.stockID, txID, userID, "LIMIT", req.isBuy,
                     req.quantity, req.price, "IN_PROGRESS", now⟩])

/-- `placeStockOrder`: reject a non-positive quantity, then dispatch on
the upper-cased order type; an unknown type is rejected. -/
def placeStockOrder (userID : Int) (req : PlaceRequest) (txID : String) (now : Int)
    (store : List ActiveRow) : PlaceResult × List ActiveRow :=
  if req.quantity ≤ 0 then
    (.badRequest ("Invalid quantity"), store)
  else if toUpperAscii req.orderType = "MARKET" then
    placeMarketOrder userID req txID now store
  else if toUpperAscii req.orderType = "LIMIT" then
    placeLimitOrder userID req txID now store
  else
    (.badRequest ("Invalid order type (must be MARKET or LIMIT)"), store)

/-!
## History writers

Two implementations of stock-transaction recording exist in the source;
both write to a `stock_transactions` table.  The only schema for that
table in the repository is `order-history/migrations/001_create_tables.sql`,
which the order-history service itself executes at startup through
`RunMigrations`: it declares `PRIMARY KEY (stock_tx_id, time_stamp)` and
turns the table into a TimescaleDB hypertable; no unique index on
`stock_tx_id` alone exists.

`TransactionService.RecordStockTransaction` (order-history service)
runs `INSERT ... ON CONFLICT (stock_tx_id) DO UPDATE SET <all fields>`.
When PostgreSQL executes such a statement it first resolves the
`ON CONFLICT` target against the unique indexes of the table: the named
columns must be covered exactly by some unique index, otherwise the
whole statement is rejected (`there is no unique or exclusion
constraint matching the ON CONFLICT specification`) and the table is
unchanged.  The embedding carries that arbiter resolution explicitly,
so the error path of the shipped schema is preserved.

`recordTransactionHandler` (the stand-alone order-history main) runs a
plain `INSERT` with no conflict clause; an insert whose primary key
already exists fails.  That revision ships no migration of its own, so
the embedding uses the primary key of the repository's only
`stock_transactions` schema.
-/

/-- A row of the `stock_transactions` history table. -/
structure StockTxRow where
  stockTxID : String
  parentStockTxID : Option String
  walletTxID : Option String
  stockID : Int
  userID : Int
  orderStatus : String
  isBuy : Bool
  orderType : String
  stockPrice : ℚ
  quantity : Int
  timeStamp : Int
  deriving DecidableEq, Repr

/-- The unique indexes of `stock_transactions` as created by
`001_create_tables.sql`: only the composite primary key on
`(stock_tx_id, time_stamp)`. -/
def stockTxUniqueIndexes : List (List String) := [["stock_tx_id", "time_stamp"]]

/-- A unique index covers an `ON CONFLICT` target iff it consists of
exactly the named columns (column order aside). -/
def columnsMatch (ix target : List String) : Bool :=
  ix.all (fun c => target.contains c) && target.all (fun c => ix.contains c)

/-- PostgreSQL arbiter resolution for `INSERT ... ON CONFLICT
(target)`: some unique index of the table must cover exactly the target
columns, otherwise the statement is rejected at run time. -/
def onConflictArbiterOk (indexes : List (List String)) (target : List String) : Bool :=
  indexes.any (fun ix => columnsMatch ix target)

/-- The `DO UPDATE SET <every field>` arm of the statement, as it would
execute when an arbiter index matches: every row carrying the key is
overwritten with the incoming values, otherwise the row is appended.
Against the shipped schema this arm is unreachable, because the arbiter
resolution fails first. -/
def upsertByTxID (rows : List StockTxRow) (tx : StockTxRow) : List StockTxRow :=
  if ∃ r ∈ rows, r.stockTxID = tx.stockTxID then
    rows.map (fun r => if r.stockTxID = tx.stockTxID then tx else r)
  else
    rows ++ [tx]

/-- `RecordStockTransaction` of the order-history service: default the
timestamp to `now` when zero and the key to the fresh UUID when empty,
then execute `INSERT ... ON CONFLICT (stock_tx_id) DO UPDATE` against
the table whose unique indexes are `stockTxUniqueIndexes`.  The arbiter
target `(stock_tx_id)` is not covered by the composite primary key, so
the statement is rejected and the store is left unchanged. -/
def RecordStockTransaction (now : Int) (fresh : String)
    (rows : List StockTxRow) (tx : StockTxRow) : Except String (List StockTxRow) :=
  let tx1 := if tx.timeStamp = 0 then { tx with timeStamp := now } else tx
  let tx2 := if tx1.stockTxID = "" then { tx1 with stockTxID := fresh } else tx1
  if onConflictArbiterOk stockTxUniqueIndexes ["stock_tx_id"] then
    .ok (upsertByTxID rows tx2)
  else
    .error ("there is no unique or exclusion constraint matching the ON CONFLICT specification")

/-- `recordTransactionHandler` of the stand-alone order-history main:
store the `Created` timestamp (or `now` when it is zero) and issue a
plain `INSERT` with no conflict clause.  The insert fails when a row
with the same primary key `(stock_tx_id, time_stamp)` already exists
and appends the row otherwise. -/
def recordTransactionHandler (now : Int) (rows : List StockTxRow) (o : Order) :
    Except String (List StockTxRow) :=
  let tstamp := if o.created = 0 then now else o.created
  if ∃ r ∈ rows, r.stockTxID = o.stockTxID ∧ r.timeStamp = tstamp then
    .error ("duplicate key value violates unique constraint")
  else
    .ok (rows ++ [⟨o.stockTxID,
                   (if o.parentStockTxID = "" then none else some o.parentStockTxID),
                   o.walletTxID, o.stockID, o.userID, o.status, o.isBuy,
                   o.orderType, o.price, o.quantity, tstamp⟩])

/-!
## Book invariant predicates
-/

/-- A book entry status allowed to rest: IN_PROGRESS or
PARTIALLY_COMPLETE. -/
def statusOk (o : Order) : Prop :=
  o.status = "IN_PROGRESS" ∨ o.status = "PARTIALLY_COMPLETE"

/-- The documented book invariant: every resting entry has strictly
positive remaining quantity and a non-terminal status. -/
def goodBook (ob : OrderBook) : Prop :=
  (∀ o ∈ ob.buys, 0 < o.quantity ∧ statusOk o) ∧
  (∀ o ∈ ob.sells, 0 < o.quantity ∧ statusOk o)

/-- The invariant over the whole books map. -/
def goodBooks (books : Books) : Prop := ∀ s, goodBook (books s)

/-- The weakened invariant maintained inside the matching loop, where
depleted entries linger until the final compaction: a positive quantity
forces a non-terminal status. -/
def weakOk (o : Order) : Prop := 0 < o.quantity → statusOk o

/-!
## Concrete inputs used by the counterexamples and witnesses
-/

/-- Buyer side of the settlement scenario: user 1, stock 1, limit 5. -/
def c1buy : Order := ⟨1, "B-C1", "", none, 1, "LIMIT", true, 10, 5, "IN_PROGRESS", 1⟩

/-- Seller side of the settlement scenario: user 2, stock 1, limit 5. -/
def c1sell : Order := ⟨1, "S-C1", "", none, 2, "LIMIT", false, 10, 5, "IN_PROGRESS", 0⟩

/-- Pre-trade external state: every wallet at 1000; user 2 holds 50
shares of stock 1; every other holding is 0. -/
def c1state : SettleState :=
  ⟨fun _ => 1000, fun u s => if u = 2 ∧ s = 1 then 50 else 0⟩

/-- Resting sell at price 60, inserted first. -/
def c2s60 : Order := ⟨1, "S-60", "", none, 2, "LIMIT", false, 10, 60, "IN_PROGRESS", 1⟩

/-- Resting sell at the strictly better price 50, inserted second. -/
def c2s50 : Order := ⟨1, "S-50", "", none, 3, "LIMIT", false, 10, 50, "IN_PROGRESS", 2⟩

/-- Incoming buy with limit 60, crossing both resting sells. -/
def c2buy : Order := ⟨1, "B-60", "", none, 4, "LIMIT", true, 10, 60, "IN_PROGRESS", 3⟩

/-- Books for the price-priority scenario: stock 1 holds the two
resting sells. -/
def c2books : Books := fun s => if s = 1 then ⟨[], [c2s60, c2s50]⟩ else ⟨[], []⟩

/-- Resting (older) buy with limit 60. -/
def c3restingBuy : Order := ⟨1, "B-REST", "", none, 1, "LIMIT", true, 10, 60, "IN_PROGRESS", 1⟩

/-- Incoming (younger) sell with limit 50. -/
def c3incomingSell : Order := ⟨1, "S-INC", "", none, 2, "LIMIT", false, 10, 50, "IN_PROGRESS", 2⟩

/-- Books for the execution-price scenario: stock 1 holds the resting
buy. -/
def c3books : Books := fun s => if s = 1 then ⟨[c3restingBuy], []⟩ else ⟨[], []⟩

/-- Buy order for the sell-side-price witness. -/
def c3wBuy : Order := ⟨1, "B-W3", "", none, 1, "LIMIT", true, 10, 7, "IN_PROGRESS", 1⟩

/-- Sell order for the sell-side-price witness. -/
def c3wSell : Order := ⟨1, "S-W3", "", none, 2, "LIMIT", false, 10, 3, "IN_PROGRESS", 2⟩

/-- External state for the sell-side-price witness. -/
def c3wState : SettleState := ⟨fun _ => 100, fun _ _ => 20⟩

/-- Resting MARKET sell (price 0) with no LIMIT liquidity anywhere. -/
def c4marketSell : Order := ⟨1, "MS-C4", "", none, 2, "MARKET", false, 5, 0, "IN_PROGRESS", 1⟩

/-- Incoming MARKET buy (price 0). -/
def c4marketBuy : Order := ⟨1, "MB-C4", "", none, 1, "MARKET", true, 5, 0, "IN_PROGRESS", 2⟩

/-- Books for the market-market scenario: stock 1 holds only the
MARKET sell. -/
def c4books : Books := fun s => if s = 1 then ⟨[], [c4marketSell]⟩ else ⟨[], []⟩

/-- Resting LIMIT sell for 100 shares at 50. -/
def c5sell : Order := ⟨1, "S-PARENT", "", none, 2, "LIMIT", false, 100, 50, "IN_PROGRESS", 1⟩

/-- Incoming MARKET buy for 40 shares, partially filling the sell. -/
def c5buy : Order := ⟨1, "B-MKT", "", none, 1, "MARKET", true, 40, 0, "IN_PROGRESS", 2⟩

/-- Books for the partial-fill scenario: stock 1 holds the large
sell. -/
def c5books : Books := fun s => if s = 1 then ⟨[], [c5sell]⟩ else ⟨[], []⟩

/-- A SELL LIMIT request for 5 shares at price 10. -/
def c6req : PlaceRequest := ⟨1, "LIMIT", false, 5, 10⟩

/-- A request with non-positive quantity. -/
def c7qtyReq : PlaceRequest := ⟨1, "LIMIT", true, 0, 10⟩

/-- A LIMIT request with non-positive price. -/
def c7limitReq : PlaceRequest := ⟨1, "limit", true, 5, 0⟩

/-- A MARKET request that supplies a nonzero price. -/
def c7marketReq : PlaceRequest := ⟨1, "market", true, 5, 3⟩

/-- Event order for the invariant witness. -/
def c8worder : Order := ⟨1, "W-C8", "", none, 1, "LIMIT", true, 5, 10, "IN_PROGRESS", 1⟩

/-- Books map with every book empty, for the invariant witness. -/
def c8wbooks : Books := fun _ => ⟨[], []⟩

/-- A completed order posted twice to the stand-alone history
writer. -/
def c9order : Order := ⟨1, "H-1", "", none, 1, "LIMIT", true, 0, 50, "COMPLETED", 5⟩

/-- A history row with a fixed key, for the upsert witness. -/
def c9row : StockTxRow := ⟨"H-1", none, none, 1, 1, "COMPLETED", true, "LIMIT", 50, 0, 5⟩

/-- Resting LIMIT sell for the record-quantity witness. -/
def c10sell : Order := ⟨2, "S-C10", "", none, 5, "LIMIT", false, 7, 4, "IN_PROGRESS", 1⟩

/-- Incoming MARKET buy fully consuming the sell. -/
def c10buy : Order := ⟨2, "B-C10", "", none, 6, "MARKET", true, 7, 0, "IN_PROGRESS", 2⟩

/-- Books for the record-quantity witness: stock 2 holds the sell. -/
def c10books : Books := fun s => if s = 2 then ⟨[], [c10sell]⟩ else ⟨[], []⟩

/-!
## Theorems
-/

/-- C1: when saga steps 1-3 succeed and step 4 (credit seller) fails,
`executeTrade` is supposed to compensate steps 3, 2, 1 in reverse and
restore the buyer wallet, the buyer holding and the seller holding.  On
the concrete trade (qty 10 at price 5, cost 50, every wallet at 1000)
the two holdings are indeed restored, but the buyer wallet ends at 900:
the step-1 compensation calls the deduct endpoint again instead of the
refund endpoint, so the buyer loses the cost twice and the step-1 debit
is never refunded. -/
theorem c1_step4_failure_double_debits_buyer :
    (executeTrade c1buy c1sell 10 true true true false true true true c1state).1 = false
    ∧ (executeTrade c1buy c1sell 10 true true true false true true true c1state).2.wallet 1 = 900
    ∧ c1state.wallet 1 = 1000
    ∧ (executeTrade c1buy c1sell 10 true true true false true true true c1state).2.portfolio 2 1
        = c1state.portfolio 2 1
    ∧ (executeTrade c1buy c1sell 10 true true true false true true true c1state).2.portfolio 1 1
        = c1state.portfolio 1 1
    ∧ (executeTrade c1buy c1sell 10 true true true false true true true c1state).2.wallet 1
        ≠ c1state.wallet 1 := by
  refine ⟨by decide, ?_, by norm_num [c1state], by decide, by decide, ?_⟩ <;>
    norm_num [executeTrade, tradePrice, deductMoney, addMoney, updatePortfolio, runIf,
      c1buy, c1sell, c1state]

/-- C2 (counterexample): with the sell S-60 (price 60, older) and the
sell S-50 (price 50, younger) resting and an incoming buy with limit
60, the engine trades with S-60 even though the crossable S-50 offers
the strictly better price, so the chosen resting order is not the
best-priced one. -/
theorem c2_better_priced_sell_passed_over :
    (handleOrderEvent c2buy c2books).2.1 = [⟨c2buy, c2s60, 10⟩]
    ∧ (handleOrderEvent c2buy c2books).1 1 = ⟨[], [c2s50]⟩
    ∧ canMatch c2buy c2s50 = true
    ∧ c2s50.price < c2s60.price := by decide

/-- C3 (counterexample): a resting (older) buy with limit 60 is crossed
by an incoming sell with limit 50; the execution price computed for the
trade is 50, the price of the incoming sell, not the price 60 of the
resting order. -/
theorem c3_execution_price_not_resting_price :
    (handleOrderEvent c3incomingSell c3books).2.1 = [⟨c3restingBuy, c3incomingSell, 10⟩]
    ∧ c3restingBuy.created < c3incomingSell.created
    ∧ tradePrice c3restingBuy c3incomingSell = c3incomingSell.price
    ∧ tradePrice c3restingBuy c3incomingSell ≠ c3restingBuy.price := by decide

/-- C4 (counterexample): a MARKET buy meeting a resting MARKET sell
with no LIMIT liquidity anywhere produces a trade (at trade price 0)
and both orders leave the book, instead of no trade occurring and both
resting until LIMIT liquidity appears. -/
theorem c4_two_market_orders_trade :
    (handleOrderEvent c4marketBuy c4books).2.1 = [⟨c4marketBuy, c4marketSell, 5⟩]
    ∧ (handleOrderEvent c4marketBuy c4books).1 1 = ⟨[], []⟩
    ∧ canMatch c4marketBuy c4marketSell = true
    ∧ tradePrice c4marketBuy c4marketSell = 0 := by decide

/-- C5 (counterexample): a MARKET buy for 40 partially fills a resting
sell for 100.  No child order is minted: the only history record is the
buy itself under its own transaction id with quantity 0 (not the traded
40), no record carries a parent id, and the sell continues to rest in
place with quantity 60 and status PARTIALLY_COMPLETE. -/
theorem c5_no_child_order_minted :
    (handleOrderEvent c5buy c5books).2.1 = [⟨c5buy, c5sell, 40⟩]
    ∧ (handleOrderEvent c5buy c5books).2.2
        = [⟨"B-MKT", 1, 1, 0, 0, "COMPLETED"⟩]
    ∧ (handleOrderEvent c5buy c5books).1 1
        = ⟨[], [{ c5sell with quantity := 60, status := "PARTIALLY_COMPLETE" }]⟩
    ∧ c5buy.quantity = 40 := by decide

/-- C6 (counterexample): the intake handler accepts a SELL LIMIT order
for 5 shares and inserts it IN_PROGRESS although it has no access to
any holding data: no quantity-owned check and no escrow happen, so the
order is accepted even for a user owning 0 shares. -/
theorem c6_sell_accepted_without_ownership_check :
    (placeStockOrder 7 c6req ("TX-1") 0 []).1 = PlaceResult.ok
    ∧ (placeStockOrder 7 c6req ("TX-1") 0 []).2
        = [⟨"limit_sell", 1, "TX-1", 7, "LIMIT", false, 5, 10, "IN_PROGRESS", 0⟩] := by decide

/-- C6 (amended): intake performs no ownership check and no escrow.  A
SELL LIMIT request with positive quantity and positive price is
accepted and inserted with status IN_PROGRESS for every user and every
prior store state; the seller holdings are not an input of the handler
at all, so a user can place a SELL order for more shares than they
own. -/
theorem c6_intake_inserts_sell_unconditionally (userID : Int) (req : PlaceRequest)
    (txID : String) (now : Int) (store : List ActiveRow)
    (hsell : req.isBuy = false) (hq : 0 < req.quantity)
    (hty : toUpperAscii req.orderType = "LIMIT") (hp : 0 < req.price) :
    placeStockOrder userID req txID now store
      = (.ok, store ++ [⟨"limit_sell", req.stockID, txID, userID, "LIMIT", false,
                         req.quantity, req.price, "IN_PROGRESS", now⟩]) := by
  have h0 : ¬ req.quantity ≤ 0 := by omega
  have hpn : ¬ req.price ≤ 0 := not_le.mpr hp
  unfold placeStockOrder placeLimitOrder
  rw [if_neg h0, hty]
  rw [if_neg (by decide : ¬ ("LIMIT" : String) = "MARKET")]
  rw [if_pos (rfl : ("LIMIT" : String) = "LIMIT")]
  rw [if_neg hpn, hsell]
  simp

/-- C6 (witness): the amended statement evaluated on the concrete SELL
LIMIT request for 5 shares at price 10 by user 7 on an empty store. -/
theorem c6_intake_inserts_sell_unconditionally_witness :
    placeStockOrder 7 c6req ("TX-W6") 2 []
      = (.ok, [] ++ [⟨"limit_sell", c6req.stockID, "TX-W6", 7, "LIMIT", false,
                      c6req.quantity, c6req.price, "IN_PROGRESS", 2⟩]) :=
  c6_intake_inserts_sell_unconditionally 7 c6req ("TX-W6") 2 []
    (by decide) (by decide) (by decide) (by decide)

/-- C7: `placeStockOrder` rejects every request with non-positive
quantity, every LIMIT request with non-positive price and every MARKET
request carrying a nonzero price; in each case the response is a
bad-request error and the order store is unchanged, so no order is
created. -/
theorem c7_placeStockOrder_validation (userID : Int) (req : PlaceRequest)
    (txID : String) (now : Int) (store : List ActiveRow) :
    (req.quantity ≤ 0 →
      placeStockOrder userID req txID now store
        = (.badRequest ("Invalid quantity"), store))
    ∧ (0 < req.quantity → toUpperAscii req.orderType = "LIMIT" → req.price ≤ 0 →
      placeStockOrder userID req txID now store
        = (.badRequest ("Invalid price for LIMIT order"), store))
    ∧ (0 < req.quantity → toUpperAscii req.orderType = "MARKET" → req.price ≠ 0 →
      placeStockOrder userID req txID now store
        = (.badRequest ("Market orders cannot have a price"), store)) := by
  refine ⟨?_, ?_, ?_⟩
  · intro h
    unfold placeStockOrder
    rw [if_pos h]
  · intro hq hty hp
    have h0 : ¬ req.quantity ≤ 0 := by omega
    unfold placeStockOrder placeLimitOrder
    rw [if_neg h0, hty]
    rw [if_neg (by decide : ¬ ("LIMIT" : String) = "MARKET")]
    rw [if_pos (rfl : ("LIMIT" : String) = "LIMIT")]
    rw [if_pos hp]
  · intro hq hty hp
    have h0 : ¬ req.quantity ≤ 0 := by omega
    unfold placeStockOrder placeMarketOrder
    rw [if_neg h0, hty]
    rw [if_pos (rfl : ("MARKET" : String) = "MARKET")]
    rw [if_pos hp]

/-- C7 (witness): the three rejection rules evaluated on concrete
requests: quantity 0, LIMIT at price 0, and MARKET at price 3. -/
theorem c7_placeStockOrder_validation_witness :
    placeStockOrder 3 c7qtyReq ("T-A") 0 []
      = (.badRequest ("Invalid quantity"), [])
    ∧ placeStockOrder 3 c7limitReq ("T-B") 0 []
      = (.badRequest ("Invalid price for LIMIT order"), [])
    ∧ placeStockOrder 3 c7marketReq ("T-C") 0 []
      = (.badRequest ("Market orders cannot have a price"), []) :=
  ⟨(c7_placeStockOrder_validation 3 c7qtyReq ("T-A") 0 []).1 (by decide),
   (c7_placeStockOrder_validation 3 c7limitReq ("T-B") 0 []).2.1
     (by decide) (by decide) (by decide),
   (c7_placeStockOrder_validation 3 c7marketReq ("T-C") 0 []).2.2
     (by decide) (by decide) (by decide)⟩

/-- C2 (amended): the matching loop consults neither price levels nor
`created_at` nor transaction ids for priority; for any buy and any sell
slice, the counterparty of the first trade produced is exactly the
first resting sell in slice (insertion) order that has positive
quantity and crosses, and the traded quantity is the minimum of the two
remaining quantities. -/
theorem c2_first_crossable_in_insertion_order (buy : Order) (sells : List Order) :
    (matchSells buy sells).trades.head?
      = (sells.find? (fun s => decide (0 < s.quantity) && canMatch buy s)).map
          (fun s => ⟨buy, s, min buy.quantity s.quantity⟩) := by
  induction sells with
  | nil => rfl
  | cons sell rest ih =>
    by_cases h1 : sell.quantity ≤ 0
    · have hq : ¬ (0 < sell.quantity) := by omega
      simp [matchSells, h1, hq, ih]
    · by_cases h2 : canMatch buy sell
      · by_cases h3 : buy.quantity - min buy.quantity sell.quantity ≤ 0 <;>
          simp [matchSells, settleLeg, h1, h2, h3, lt_of_not_le h1]
      · have hq : 0 < sell.quantity := lt_of_not_le h1
        simp [matchSells, h1, h2, hq, ih]

/-- C3 (amended): the execution price (via a fully successful
settlement: buyer debited, seller credited) is always `qty` times the
sell-side price: the price of the sell order, falling back to the price
of the buy order exactly when the sell price is 0 and the buy price is
not.  Which of the two orders rested longer plays no role. -/
theorem c3_money_moves_at_sell_side_price (buy sell : Order) (qty : Int)
    (st : SettleState) (h : buy.userID ≠ sell.userID) :
    ((executeTrade buy sell qty true true true true true true true st).2.wallet buy.userID
        = st.wallet buy.userID - qty * tradePrice buy sell)
    ∧ ((executeTrade buy sell qty true true true true true true true st).2.wallet sell.userID
        = st.wallet sell.userID + qty * tradePrice buy sell)
    ∧ (sell.price ≠ 0 → tradePrice buy sell = sell.price)
    ∧ (sell.price = 0 → buy.price ≠ 0 → tradePrice buy sell = buy.price) := by
  refine ⟨?_, ?_, ?_, ?_⟩
  · simp [executeTrade, runIf, addMoney, deductMoney, updatePortfolio, h]
  · simp [executeTrade, runIf, addMoney, deductMoney, updatePortfolio, Ne.symm h]
  · intro h0
    simp [tradePrice, h0]
  · intro h0 h1
    simp [tradePrice, h0, h1]

/-- C3 (witness): the sell-side-price statement evaluated on a concrete
trade between users 1 and 2 at buy limit 7 and sell limit 3. -/
theorem c3_money_moves_at_sell_side_price_witness :
    c3wBuy.userID ≠ c3wSell.userID
    ∧ (((executeTrade c3wBuy c3wSell 10 true true true true true true true c3wState).2.wallet
          c3wBuy.userID
        = c3wState.wallet c3wBuy.userID - 10 * tradePrice c3wBuy c3wSell)
       ∧ ((executeTrade c3wBuy c3wSell 10 true true true true true true true c3wState).2.wallet
            c3wSell.userID
          = c3wState.wallet c3wSell.userID + 10 * tradePrice c3wBuy c3wSell)
       ∧ (c3wSell.price ≠ 0 → tradePrice c3wBuy c3wSell = c3wSell.price)
       ∧ (c3wSell.price = 0 → c3wBuy.price ≠ 0 → tradePrice c3wBuy c3wSell = c3wBuy.price)) :=
  ⟨by decide, c3_money_moves_at_sell_side_price c3wBuy c3wSell 10 c3wState (by decide)⟩

/-- C4 (amended): the cross condition holds whenever either side is a
MARKET order, including when both are: a MARKET buy meeting a resting
MARKET sell (both at the zero price intake assigns to MARKET orders)
crosses and trades the minimum of the two quantities, at trade price
0. -/
theorem c4_market_orders_always_cross (b s : Order)
    (hb : toUpperAscii b.orderType = "MARKET") (hsq : 0 < s.quantity)
    (hbp : b.price = 0) (hsp : s.price = 0) :
    canMatch b s = true
    ∧ (matchSells b [s]).trades = [⟨b, s, min b.quantity s.quantity⟩]
    ∧ tradePrice b s = 0 := by
  have hcm : canMatch b s = true := by simp [canMatch, hb]
  refine ⟨hcm, ?_, ?_⟩
  · have h1 : ¬ s.quantity ≤ 0 := by omega
    by_cases h3 : b.quantity - min b.quantity s.quantity ≤ 0 <;>
      simp [matchSells, settleLeg, h1, hcm, h3]
  · simp [tradePrice, hbp, hsp]

/-- C4 (witness): the market-market cross statement evaluated on the
concrete MARKET buy and resting MARKET sell of stock 1. -/
theorem c4_market_orders_always_cross_witness :
    toUpperAscii c4marketBuy.orderType = "MARKET"
    ∧ 0 < c4marketSell.quantity
    ∧ c4marketBuy.price = 0
    ∧ c4marketSell.price = 0
    ∧ (canMatch c4marketBuy c4marketSell = true
       ∧ (matchSells c4marketBuy [c4marketSell]).trades
          = [⟨c4marketBuy, c4marketSell, min c4marketBuy.quantity c4marketSell.quantity⟩]
       ∧ tradePrice c4marketBuy c4marketSell = 0) :=
  ⟨by decide, by decide, by decide, by decide,
   c4_market_orders_always_cross c4marketBuy c4marketSell
     (by decide) (by decide) (by decide) (by decide)⟩

/-- C5 (amended): on a partial fill no child order is minted and
nothing carries a fresh transaction id: when an incoming buy crosses a
single resting sell with more remaining quantity, the sell itself stays
in the book with its quantity decremented and status
PARTIALLY_COMPLETE, the single trade carries the incoming order
snapshot, and the only history record is the incoming buy under its own
transaction id with quantity 0 (its decremented remainder), not the
traded amount, with the parent id field untouched. -/
theorem c5_partial_fill_rests_in_place (b s : Order) (books : Books)
    (hbb : b.isBuy = true) (hcm : canMatch b s = true)
    (hbst : b.status = "IN_PROGRESS")
    (h0 : 0 < b.quantity) (hlt : b.quantity < s.quantity)
    (hbook : books b.stockID = ⟨[], [s]⟩) :
    (handleOrderEvent b books).1 b.stockID
      = ⟨[],
         [{ s with quantity := s.quantity - b.quantity, status := "PARTIALLY_COMPLETE" }]⟩
    ∧ (handleOrderEvent b books).2.1 = [⟨b, s, b.quantity⟩]
    ∧ (handleOrderEvent b books).2.2
      = [⟨b.stockTxID, b.userID, b.stockID, 0, b.price, "COMPLETED"⟩] := by
  have hnc : ¬ b.status = "CANCELLED" := by rw [hbst]; decide
  have hmin : min b.quantity s.quantity = b.quantity := min_eq_left (le_of_lt hlt)
  have hsqpos : ¬ s.quantity ≤ 0 := by omega
  have hbq0 : b.quantity - min b.quantity s.quantity = 0 := by omega
  have hbq0' : b.quantity - min b.quantity s.quantity ≤ 0 := by omega
  have hsq0 : ¬ s.quantity - min b.quantity s.quantity = 0 := by omega
  have hsqgt : 0 < s.quantity - min b.quantity s.quantity := by omega
  have hb0 : ¬ b.quantity ≤ 0 := by omega
  have hsb : ¬ s.quantity - b.quantity = 0 := by omega
  have hsbgt : 0 < s.quantity - b.quantity := by omega
  refine ⟨?_, ?_, ?_⟩ <;>
    simp [handleOrderEvent, hnc, matchOrders, matchBuys, matchSells, settleLeg, addOrder,
      hbb, hbook, hsqpos, hcm, hbq0, hbq0', hsq0, hsqgt, hmin, recordFinalTransaction,
      filterNonZero, h0, hb0, hsb, hsbgt]

/-- C5 (witness): the partial-fill statement evaluated on the concrete
MARKET buy for 40 against the resting sell for 100 at price 50. -/
theorem c5_partial_fill_rests_in_place_witness :
    c5buy.isBuy = true
    ∧ canMatch c5buy c5sell = true
    ∧ c5buy.status = "IN_PROGRESS"
    ∧ 0 < c5buy.quantity
    ∧ c5buy.quantity < c5sell.quantity
    ∧ c5books c5buy.stockID = ⟨[], [c5sell]⟩
    ∧ ((handleOrderEvent c5buy c5books).1 c5buy.stockID
        = ⟨[],
           [{ c5sell with quantity := c5sell.quantity - c5buy.quantity, status := "PARTIALLY_COMPLETE" }]⟩
       ∧ (handleOrderEvent c5buy c5books).2.1 = [⟨c5buy, c5sell, c5buy.quantity⟩]
       ∧ (handleOrderEvent c5buy c5books).2.2
        = [⟨c5buy.stockTxID, c5buy.userID, c5buy.stockID, 0, c5buy.price, "COMPLETED"⟩]) :=
  ⟨by decide, by decide, by decide, by decide, by decide, by decide,
   c5_partial_fill_rests_in_place c5buy c5sell c5books
     (by decide) (by decide) (by decide) (by decide) (by decide) (by decide)⟩

/-- A leg updated by `settleLeg` satisfies the weakened invariant: a
positive remainder forces the PARTIALLY_COMPLETE branch. -/
theorem weakOk_settleLeg (o : Order) (qty : Int) : weakOk (settleLeg o qty) := by
  intro hq
  by_cases h : o.quantity - qty = 0
  · exfalso
    simp only [settleLeg] at hq
    omega
  · simp [settleLeg, statusOk, h]

/-- The inner matching loop preserves the weakened invariant on the
scanned buy and on every entry of the sell slice. -/
theorem matchSells_weakOk (sells : List Order) :
    ∀ buy : Order, weakOk buy → (∀ s ∈ sells, weakOk s) →
      weakOk (matchSells buy sells).buy ∧
        ∀ s ∈ (matchSells buy sells).sells, weakOk s := by
  induction sells with
  | nil =>
    intro buy hb _
    exact ⟨by simpa [matchSells] using hb, by simp [matchSells]⟩
  | cons sell rest ih =>
    intro buy hb hs
    have hsell : weakOk sell := hs sell (by simp)
    have hrest : ∀ s ∈ rest, weakOk s := fun s hmem => hs s (by simp [hmem])
    simp only [matchSells]
    by_cases h1 : sell.quantity ≤ 0
    · rw [if_pos h1]
      obtain ⟨ha, hrec⟩ := ih buy hb hrest
      refine ⟨ha, ?_⟩
      intro s hmem
      rcases List.mem_cons.mp hmem with h | h
      · exact h ▸ hsell
      · exact hrec s h
    · rw [if_neg h1]
      by_cases h2 : canMatch buy sell = true
      · rw [if_pos h2]
        by_cases h3 : (settleLeg buy (min buy.quantity sell.quantity)).quantity ≤ 0
        · rw [if_pos h3]
          refine ⟨weakOk_settleLeg buy _, ?_⟩
          intro s hmem
          rcases List.mem_cons.mp hmem with h | h
          · exact h ▸ weakOk_settleLeg sell _
          · exact hrest s h
        · rw [if_neg h3]
          obtain ⟨ha, hrec⟩ := ih _ (weakOk_settleLeg buy _) hrest
          refine ⟨ha, ?_⟩
          intro s hmem
          rcases List.mem_cons.mp hmem with h | h
          · exact h ▸ weakOk_settleLeg sell _
          · exact hrec s h
      · rw [if_neg h2]
        obtain ⟨ha, hrec⟩ := ih buy hb hrest
        refine ⟨ha, ?_⟩
        intro s hmem
        rcases List.mem_cons.mp hmem with h | h
        · exact h ▸ hsell
        · exact hrec s h

/-- The outer matching loop preserves the weakened invariant on both
slices. -/
theorem matchBuys_weakOk (buys : List Order) :
    ∀ sells : List Order, (∀ b ∈ buys, weakOk b) → (∀ s ∈ sells, weakOk s) →
      (∀ b ∈ (matchBuys buys sells).buys, weakOk b) ∧
        ∀ s ∈ (matchBuys buys sells).sells, weakOk s := by
  induction buys with
  | nil =>
    intro sells _ hss
    exact ⟨by simp [matchBuys], by simpa [matchBuys] using hss⟩
  | cons buy rest ih =>
    intro sells hbs hss
    have hbuy : weakOk buy := hbs buy (by simp)
    have hrest : ∀ b ∈ rest, weakOk b := fun b hmem => hbs b (by simp [hmem])
    simp only [matchBuys]
    split_ifs with h1
    · obtain ⟨ha, hb2⟩ := ih sells hrest hss
      refine ⟨?_, hb2⟩
      intro b hmem
      rcases List.mem_cons.mp hmem with h | h
      · exact h ▸ hbuy
      · exact ha b h
    · obtain ⟨hsb, hsres⟩ := matchSells_weakOk sells buy hbuy hss
      obtain ⟨ha, hb2⟩ := ih (matchSells buy sells).sells hrest hsres
      refine ⟨?_, hb2⟩
      intro b hmem
      rcases List.mem_cons.mp hmem with h | h
      · exact h ▸ hsb
      · exact ha b h

/-- After the final compaction, the weakened invariant gives the full
book invariant: every kept entry has positive quantity and a
non-terminal status. -/
theorem filterNonZero_good (l : List Order) (h : ∀ o ∈ l, weakOk o) :
    ∀ o ∈ filterNonZero l, 0 < o.quantity ∧ statusOk o := by
  intro o hmem
  rw [filterNonZero, List.mem_filter] at hmem
  obtain ⟨hl, hq⟩ := hmem
  have hq2 : 0 < o.quantity := by simpa using hq
  exact ⟨hq2, h o hl hq2⟩

/-- C8: handling any event preserves the book invariant.  If every book
entry has positive quantity and status IN_PROGRESS or
PARTIALLY_COMPLETE, then after `handleOrderEvent` - a CANCELLED payload
(removal) or any other payload with a non-terminal status (insertion
followed by the matching loop) - every entry of every per-stock book
again has positive remaining quantity and status IN_PROGRESS or
PARTIALLY_COMPLETE; depleted COMPLETED entries never rest. -/
theorem c8_book_invariant_preserved (o : Order) (books : Books)
    (hg : goodBooks books)
    (ho : o.status = "CANCELLED" ∨ statusOk o) :
    goodBooks (handleOrderEvent o books).1 := by
  by_cases hc : o.status = "CANCELLED"
  · intro s
    simp only [handleOrderEvent, if_pos hc]
    obtain ⟨h1, h2⟩ := hg s
    constructor
    · intro x hx
      rw [removeFromBook] at hx
      simp only [filterOutTxID, List.mem_filter] at hx
      exact h1 x hx.1
    · intro x hx
      rw [removeFromBook] at hx
      simp only [filterOutTxID, List.mem_filter] at hx
      exact h2 x hx.1
  · have ho2 : statusOk o := ho.resolve_left hc
    intro s
    simp only [handleOrderEvent, if_neg hc]
    by_cases hs : s = o.stockID
    · subst hs
      simp only [if_pos rfl]
      have hweak : (∀ b ∈ (addOrder o (books o.stockID)).buys, weakOk b) ∧
          ∀ x ∈ (addOrder o (books o.stockID)).sells, weakOk x := by
        obtain ⟨h1, h2⟩ := hg o.stockID
        unfold addOrder
        by_cases hb : o.isBuy <;> simp only [hb, if_pos, if_neg, Bool.false_eq_true,
          ite_true, ite_false] <;> constructor <;> intro x hx
        · rcases List.mem_append.mp hx with h | h
          · exact fun _ => (h1 x h).2
          · have : x = o := by simpa using h
            exact this ▸ fun _ => ho2
        · exact fun _ => (h2 x hx).2
        · exact fun _ => (h1 x hx).2
        · rcases List.mem_append.mp hx with h | h
          · exact fun _ => (h2 x h).2
          · have : x = o := by simpa using h
            exact this ▸ fun _ => ho2
      obtain ⟨hwb, hws⟩ := hweak
      obtain ⟨hmb, hms⟩ := matchBuys_weakOk _ _ hwb hws
      simp only [matchOrders]
      exact ⟨filterNonZero_good _ hmb, filterNonZero_good _ hms⟩
    · simp only [if_neg hs]
      exact hg s

/-- C8 (witness): the invariant statement evaluated on the empty books
map and a concrete IN_PROGRESS buy event. -/
theorem c8_book_invariant_preserved_witness :
    goodBooks c8wbooks
    ∧ (c8worder.status = "CANCELLED" ∨ statusOk c8worder)
    ∧ goodBooks (handleOrderEvent c8worder c8wbooks).1 := by
  have hg : goodBooks c8wbooks := by
    intro s
    exact ⟨by simp [c8wbooks], by simp [c8wbooks]⟩
  have ho : c8worder.status = "CANCELLED" ∨ statusOk c8worder := by
    right
    left
    decide
  exact ⟨hg, ho, c8_book_invariant_preserved c8worder c8wbooks hg ho⟩

/-- C9: the claim states the intended behavior - the SQL of
`RecordStockTransaction` spells out an idempotent upsert keyed on
`stock_tx_id` that never fails - but the shipped code cannot perform
it.  Against the unique indexes created by the migration the service
itself runs (`stockTxUniqueIndexes`, only the composite primary key on
`(stock_tx_id, time_stamp)`), the `ON CONFLICT (stock_tx_id)` arbiter
matches no index, so every recording call is rejected by PostgreSQL and
no row is ever inserted or upserted; and the stand-alone plain-INSERT
writer accepts a first submission but fails on the duplicate submission
of the same record instead of upserting idempotently. -/
theorem c9_history_recording_never_upserts :
    (∀ (now : Int) (fresh : String) (rows : List StockTxRow) (tx : StockTxRow),
      RecordStockTransaction now fresh rows tx
        = .error
            ("there is no unique or exclusion constraint matching the ON CONFLICT specification"))
    ∧ recordTransactionHandler 9 [] c9order = .ok [c9row]
    ∧ recordTransactionHandler 9 [c9row] c9order
        = .error ("duplicate key value violates unique constraint") := by
  refine ⟨?_, by decide, by decide⟩
  intro now fresh rows tx
  have h : onConflictArbiterOk stockTxUniqueIndexes ["stock_tx_id"] = false := by decide
  simp [RecordStockTransaction, h]

/-- A record emitted for a leg whose quantity just reached 0 carries
quantity 0 and status COMPLETED. -/
theorem recs_of_leg (o1 : Order) :
    ∀ rec ∈ (if o1.quantity = 0 then recordFinalTransaction o1 else []),
      rec.quantity = 0 ∧ rec.orderStatus = "COMPLETED" := by
  intro rec hmem
  by_cases h : o1.quantity = 0
  · rw [if_pos h] at hmem
    unfold recordFinalTransaction at hmem
    by_cases hst : o1.status ≠ "COMPLETED"
    · rw [if_pos hst] at hmem
      cases hmem
    · rw [if_neg hst] at hmem
      have heq : rec = ⟨o1.stockTxID, o1.userID, o1.stockID, o1.quantity, o1.price,
          "COMPLETED"⟩ := by
        simpa using hmem
      rw [heq]
      exact ⟨h, rfl⟩
  · rw [if_neg h] at hmem
    cases hmem

/-- Every record produced by the inner matching loop has quantity 0 and
status COMPLETED. -/
theorem matchSells_recs (sells : List Order) :
    ∀ buy : Order, ∀ rec ∈ (matchSells buy sells).recs,
      rec.quantity = 0 ∧ rec.orderStatus = "COMPLETED" := by
  induction sells with
  | nil =>
    intro buy rec hmem
    simp [matchSells] at hmem
  | cons sell rest ih =>
    intro buy rec hmem
    simp only [matchSells] at hmem
    by_cases h1 : sell.quantity ≤ 0
    · rw [if_pos h1] at hmem
      exact ih buy rec hmem
    · rw [if_neg h1] at hmem
      by_cases h2 : canMatch buy sell = true
      · rw [if_pos h2] at hmem
        by_cases h3 : (settleLeg buy (min buy.quantity sell.quantity)).quantity ≤ 0
        · rw [if_pos h3] at hmem
          rcases List.mem_append.mp hmem with h | h
          · exact recs_of_leg _ rec h
          · exact recs_of_leg _ rec h
        · rw [if_neg h3] at hmem
          rcases List.mem_append.mp hmem with h | h
          · rcases List.mem_append.mp h with h4 | h4
            · exact recs_of_leg _ rec h4
            · exact recs_of_leg _ rec h4
          · exact ih _ rec h
      · rw [if_neg h2] at hmem
        exact ih buy rec hmem

/-- Every record produced by the outer matching loop has quantity 0 and
status COMPLETED. -/
theorem matchBuys_recs (buys : List Order) :
    ∀ sells : List Order, ∀ rec ∈ (matchBuys buys sells).recs,
      rec.quantity = 0 ∧ rec.orderStatus = "COMPLETED" := by
  induction buys with
  | nil =>
    intro sells rec hmem
    simp [matchBuys] at hmem
  | cons buy rest ih =>
    intro sells rec hmem
    simp only [matchBuys] at hmem
    by_cases h1 : buy.quantity ≤ 0
    · rw [if_pos h1] at hmem
      exact ih sells rec hmem
    · rw [if_neg h1] at hmem
      rcases List.mem_append.mp hmem with h | h
      · exact matchSells_recs sells buy rec h
      · exact ih _ rec h

/-- C10: every history payload the matching loop submits via
`recordFinalTransaction` carries quantity 0 and status COMPLETED: an
order is recorded only once its in-book quantity has been decremented
to 0, and that decremented quantity - not the original quantity and not
the traded amount - is what the record carries. -/
theorem c10_history_records_zero_quantity (o : Order) (books : Books) :
    ∀ rec ∈ (handleOrderEvent o books).2.2,
      rec.quantity = 0 ∧ rec.orderStatus = "COMPLETED" := by
  intro rec hmem
  unfold handleOrderEvent at hmem
  by_cases hc : o.status = "CANCELLED"
  · rw [if_pos hc] at hmem
    cases hmem
  · rw [if_neg hc] at hmem
    simp only [matchOrders] at hmem
    exact matchBuys_recs _ _ rec hmem

/-- C10 (witness): the record-quantity statement evaluated on the
concrete full cross of stock 2, whose first emitted record is the buy
with quantity 0. -/
theorem c10_history_records_zero_quantity_witness :
    (⟨"B-C10", 6, 2, 0, 0, "COMPLETED"⟩ : TxRecord) ∈ (handleOrderEvent c10buy c10books).2.2
    ∧ ((⟨"B-C10", 6, 2, 0, 0, "COMPLETED"⟩ : TxRecord).quantity = 0
       ∧ (⟨"B-C10", 6, 2, 0, 0, "COMPLETED"⟩ : TxRecord).orderStatus = "COMPLETED") :=
  ⟨by decide, c10_history_records_zero_quantity c10buy c10books _ (by decide)⟩

end RobustBanker
